import Mathlib

/-!
Shallow embedding of the `ModalProblem` class from `tacs/problems/modal.py`
(modal-analysis problem orchestration of the TACS repository), together with
theorems settling the specification claims about it.

Conventions of the embedding:
* Python floats are modelled as real numbers (`ℝ`); option values that are
  only stored and compared are modelled with rationals so that lookups stay
  decidable.
* Side effects on external collaborators (the assembler, the preconditioner,
  the Krylov solver, the eigensolver, the f5 output viewer) are modelled as an
  explicit event trace (`List Event`) returned next to the updated problem
  state; state owned by the problem object itself is carried in the
  `ModalProblem` structure.
* Methods inherited from the problem base class (`getOption`, `TACSWarning`)
  and the body of `tacs.TACS.FrequencyAnalysis.solve` are not among the
  provided sources; those are modelled from the spec, each marked by a doc
  comment starting with `Modelled from the spec:`.
-/

namespace Modal

/-- Typed option values held in the problem options table (`defOpts` in
`ModalProblem.__init__`, modal.py lines 64-81).  Float-valued options are only
stored, never computed with, so they are modelled as rationals to keep
equality decidable. -/
inductive OptValue where
  | str (s : String)
  | flt (q : ℚ)
  | int (z : ℤ)
  | bool (b : Bool)
deriving DecidableEq

/-- The options table: association list from lower-cased option name to value.
`ModalProblem.__init__` (modal.py lines 83-90) stores every default under its
lower-cased key. -/
abbrev Options := List (String × OptValue)

/-- ASCII lower-casing of a character, as Python's `str.lower` acts on the
option names appearing in this class. -/
def lowerChar (c : Char) : Char :=
  if 65 ≤ c.toNat ∧ c.toNat ≤ 90 then Char.ofNat (c.toNat + 32) else c

/-- ASCII lower-casing of a string (`str.lower` for the option names used
here). -/
def lowerStr (s : String) : String := String.mk (s.data.map lowerChar)

/-- Modelled from the spec: `getOption` is inherited from the problem base
class, which is not among the provided sources; spec section 4.1 specifies a
case-insensitive lookup that returns the current value and fails on a key
outside the default table (modelled by `Option.none`). -/
def getOption (opts : Options) (name : String) : Option OptValue :=
  (opts.find? (fun kv => kv.1 == lowerStr name)).map (fun kv => kv.2)

/-- Value of a Bool-typed option, as used by truth tests such as
`if self.getOption('writeSolution'):` (modal.py line 256). -/
def getBoolOption (opts : Options) (name : String) : Bool :=
  match getOption opts name with
  | some (OptValue.bool b) => b
  | _ => false

/-- Value of an int-typed option. -/
def getIntOption (opts : Options) (name : String) : ℤ :=
  match getOption opts name with
  | some (OptValue.int z) => z
  | _ => 0

/-- Value of a float-typed option. -/
def getFltOption (opts : Options) (name : String) : ℚ :=
  match getOption opts name with
  | some (OptValue.flt q) => q
  | _ => 0

/-- Value of a string-typed option. -/
def getStrOption (opts : Options) (name : String) : String :=
  match getOption opts name with
  | some (OptValue.str s) => s
  | _ => ""

/-- The default option table of `ModalProblem` (modal.py lines 64-81), keys
lower-cased exactly as `__init__` stores them (lines 83-90). -/
def defOpts : Options :=
  [("outputdir", OptValue.str "./"),
   ("l2convergence", OptValue.flt (1 / 1000000000000)),
   ("l2convergencerel", OptValue.flt (1 / 1000000000000)),
   ("subspacesize", OptValue.int 10),
   ("nrestarts", OptValue.int 15),
   ("outputfrequency", OptValue.int 0),
   ("writesolution", OptValue.bool true),
   ("numbersolutions", OptValue.bool true),
   ("printtiming", OptValue.bool false),
   ("printlevel", OptValue.int 0)]

/-- The two Schur matrices created in `_createVariables`: `self.M` (mass) and
`self.K` (stiffness), modal.py lines 107-108. -/
inductive MatId where
  | mass
  | stiff
deriving DecidableEq

/-- Symbolic contents of a TACS matrix handle: `jacobian a b g` stands for the
combination a*K + b*C + g*M produced by `assembleJacobian(a, b, g, ...)`; the
shifted operator K - sigma*M of the spec is `jacobian 1 0 (-sigma)`. -/
inductive MatContent where
  | unassembled
  | jacobian (alpha beta gamma : ℝ)

/-- State of the external assembler that the problem mutates: the design
variables and node coordinates bound into it, the current state variables
(set by `setVariables`), and the local vector size used by `createVec`. -/
structure Assembler where
  x : List ℝ
  Xpts : List ℝ
  stateVars : List ℝ
  numVars : Nat

/-- Results held by the frequency eigensolver after a solve: eigenvalues,
their error estimates, and eigenvectors; all empty before the first solve. -/
structure FreqResults where
  eigenvalues : List ℝ
  errors : List ℝ
  eigenvectors : List (List ℝ)

/-- Calls made by the class on its external collaborators, recorded as an
event trace. The constructors `assembleMat`/`eigenIterate` are emitted only by
the spec-modelled interior of `FrequencyAnalysis.solve`, never by the class's
own code. -/
inductive Event where
  | createSchurMat (m : MatId)
  | createPc (m : MatId)
  | assembleJacobian (alpha beta gamma : ℝ) (target : MatId)
  | pcFactor (content : MatContent)
  | createKSM (m : MatId) (subspace restarts : ℤ)
  | createFreqSolver (sigma : ℝ) (numEigs : Nat) (eigTol : ℚ)
  | setDesignVars
  | setNodes
  | freqSolverSolve (printLevel : ℤ)
  | assembleMat (m : MatId)
  | eigenIterate
  | warning (msg : String)
  | setVariables (v : List ℝ)
  | writeToFile (fname : String)

/-- The state owned by a `ModalProblem` instance.  `x` and `Xpts` are the
problem's own design-variable and node vectors (created by the base problem
class, which is not among the sources; they exist per spec section 3,
`ProblemState`).  `Kcontent`/`Mcontent` track the symbolic contents of the two
Schur matrices, `pcFactored` the operator contents held by the factored
preconditioner (and `Option.none` before any factorization), and `freqSolver`
the eigensolver's current results. -/
structure ModalProblem where
  name : String
  sigma : ℝ
  numEigs : Nat
  options : Options
  callCounter : ℤ
  x : List ℝ
  Xpts : List ℝ
  assembler : Assembler
  Kcontent : MatContent
  Mcontent : MatContent
  pcFactored : Option MatContent
  freqSolver : FreqResults

/-- `ModalProblem._createVariables` (modal.py lines 99-128): sets
`callCounter = -1`, creates the two Schur matrices and the preconditioner on
`K`, assembles the Jacobian into `K` with `alpha=1, beta=0, gamma=0` (that is,
the plain stiffness matrix), LU-factors the preconditioner, creates the Krylov
solver, and creates the frequency-analysis solver with shift `sigma`. -/
def createVariables (p : ModalProblem) : ModalProblem × List Event :=
  ({p with callCounter := -1,
           Mcontent := MatContent.unassembled,
           Kcontent := MatContent.jacobian 1 0 0,
           pcFactored := some (MatContent.jacobian 1 0 0),
           freqSolver := ⟨[], [], []⟩},
   [Event.createSchurMat MatId.mass, Event.createSchurMat MatId.stiff,
    Event.createPc MatId.stiff,
    Event.assembleJacobian 1 0 0 MatId.stiff,
    Event.pcFactor (MatContent.jacobian 1 0 0),
    Event.createKSM MatId.stiff (getIntOption p.options "subSpaceSize")
      (getIntOption p.options "nRestarts"),
    Event.createFreqSolver p.sigma p.numEigs
      (getFltOption p.options "L2Convergence")])

/-- `ModalProblem.__init__` (modal.py lines 18-97) restricted to the default
options (user overrides go through the base class's `setOption`, exercised by
no claim): stores the name, sets `sigma = fGuess**2` and `numEigs = numFreqs`
(lines 61-62), installs the lower-cased default option table (lines 64-90),
and calls `_createVariables` (line 97). The initial assembler state and the
problem's `x`/`Xpts` vectors come from the base-class construction, taken here
as parameters. -/
def initProblem (name : String) (fGuess : ℝ) (numFreqs : Nat)
    (asm : Assembler) (x Xpts : List ℝ) : ModalProblem × List Event :=
  createVariables
    { name := name, sigma := fGuess ^ 2, numEigs := numFreqs,
      options := defOpts, callCounter := 0, x := x, Xpts := Xpts,
      assembler := asm,
      Kcontent := MatContent.unassembled, Mcontent := MatContent.unassembled,
      pcFactored := Option.none, freqSolver := ⟨[], [], []⟩ }

/-- `ModalProblem.getNumFrequencies` (modal.py lines 130-139). -/
def getNumFrequencies (p : ModalProblem) : Nat × List Event := (p.numEigs, [])

/-- `ModalProblem.addFunction` (modal.py lines 141-145): not supported, warns
and returns `None`. `TACSWarning` is inherited from the base class (not among
the sources); modelled from the spec: a non-fatal diagnostic that performs no
computation and does not raise (spec sections 4.6 and 7). Keyword arguments
are accepted and ignored, so they are omitted here. -/
def addFunction {α β γ : Type} (p : ModalProblem) (funcName : α)
    (funcHandle : β) (compIDs : Option γ) : ModalProblem × List Event :=
  (p, [Event.warning "addFunction method not supported for this class."])

/-- `ModalProblem.evalFunctions` (modal.py lines 147-151): not supported,
warns and returns `None` (same modelling of `TACSWarning` as `addFunction`). -/
def evalFunctions {α β : Type} (p : ModalProblem) (funcs : α)
    (evalFuncs : Option β) (ignoreMissing : Bool) : ModalProblem × List Event :=
  (p, [Event.warning "evalFunctions method not supported for this class."])

/-- `ModalProblem.evalFunctionsSens` (modal.py lines 153-157): not supported,
warns and returns `None` (same modelling of `TACSWarning` as `addFunction`). -/
def evalFunctionsSens {α β : Type} (p : ModalProblem) (funcsSens : α)
    (evalFuncs : Option β) : ModalProblem × List Event :=
  (p, [Event.warning "evalFunctionsSens method not supported for this class."])

/-- `ModalProblem._updateAssemblerVars` (modal.py lines 161-168): pushes the
problem's design variables and node coordinates into the assembler. -/
def updateAssemblerVars (p : ModalProblem) : ModalProblem × List Event :=
  ({p with assembler := {p.assembler with x := p.x, Xpts := p.Xpts}},
   [Event.setDesignVars, Event.setNodes])

/-- Result of `solve`: the updated problem object, the trace of external calls
the method itself makes, and the exception propagating out of
`freqSolver.solve` if the eigensolver raised (`Option.none` on success). -/
structure SolveResult where
  state : ModalProblem
  events : List Event
  err : Option String

/-- `ModalProblem.solve` (modal.py lines 170-205): increments `callCounter`
(line 177), binds the problem variables into the assembler (line 182), and
calls `self.freqSolver.solve(print_level=...)` (line 187).  The eigensolver is
an external object; its outcome is passed in as `freqOutcome`.  When it
raises, the exception propagates after `callCounter` was already incremented
and the variables were already bound.  The optional timing printout
(lines 193-203) is pure console output and is not modelled. -/
def solve (p : ModalProblem) (freqOutcome : Except String FreqResults) :
    SolveResult :=
  let p1 := {p with callCounter := p.callCounter + 1}
  let p2 := (updateAssemblerVars p1).1
  let ev := (updateAssemblerVars p1).2 ++
    [Event.freqSolverSolve (getIntOption p.options "printLevel")]
  match freqOutcome with
  | Except.error e => ⟨p2, ev, some e⟩
  | Except.ok r => ⟨{p2 with freqSolver := r}, ev, Option.none⟩

/-- Modelled from the spec: the body of `tacs.TACS.FrequencyAnalysis.solve`
lives in the TACS core library and is not among the provided sources.  Spec
sections 2, 4.3 and 4.6 state that each solve rebuilds the mass and stiffness
operators from the currently bound variables, factors the shifted operator
K - sigma*M with the preconditioner, and then runs the shift-invert
eigensolver; this is its call trace. -/
def freqSolverSolveEvents (sigma : ℝ) : List Event :=
  [Event.assembleMat MatId.mass, Event.assembleMat MatId.stiff,
   Event.pcFactor (MatContent.jacobian 1 0 (-sigma)),
   Event.eigenIterate]

/-- The optional `states` argument of `getVariables` (modal.py lines 207-236):
absent, a `tacs.TACS.Vec`, or a `numpy.ndarray`. -/
inductive StatesArg where
  | noStates
  | vec (v : List ℝ)
  | ndarray (a : List ℝ)

/-- The eigenvector that `extractEigenvector(index, vec)` stores into a fresh
vector from `assembler.createVec()` (zeros of the assembler's local size). -/
def extractVec (p : ModalProblem) (index : Nat) : List ℝ :=
  p.freqSolver.eigenvectors.getD index (List.replicate p.assembler.numVars 0)

/-- Result of `getVariables`: the returned frequency and eigenvector values,
and the contents of the caller-supplied storage after the in-place
assignment. -/
structure GetVarsResult where
  freq : ℝ
  values : List ℝ
  statesOut : StatesArg

/-- `ModalProblem.getVariables` (modal.py lines 207-236): extracts the
eigenvalue of `index` (the error estimate is bound and discarded, line 227),
takes `freq = np.sqrt(eig)` (line 228), extracts the eigenvector into a fresh
vector (lines 229-230), copies it into the caller's storage when one was
passed — `copyValues` for a `tacs.TACS.Vec`, slice assignment for an
`ndarray` (lines 232-235) — and returns `(freq, eigVector.getArray())`. -/
noncomputable def getVariables (p : ModalProblem) (index : Nat)
    (states : StatesArg) : GetVarsResult :=
  let eig := p.freqSolver.eigenvalues.getD index 0
  let freq := Real.sqrt eig
  let eigVector := extractVec p index
  match states with
  | StatesArg.noStates => ⟨freq, eigVector, StatesArg.noStates⟩
  | StatesArg.vec _ => ⟨freq, eigVector, StatesArg.vec eigVector⟩
  | StatesArg.ndarray _ => ⟨freq, eigVector, StatesArg.ndarray eigVector⟩

/-- Contents of a `tacs.TACS.Vec` storage argument. -/
def statesVecValues : StatesArg → List ℝ
  | StatesArg.vec v => v
  | _ => []

/-- Zero-padding of a decimal numeral to (at least) three digits. -/
def pad3 (n : Nat) : String :=
  let s := Nat.repr n
  String.mk (List.replicate (3 - s.length) '0') ++ s

/-- Python's `'%3.3d' % n`: at least three digits (precision 3), the sign
extra; the width of 3 never adds further padding beyond that. -/
def fmt3 (n : ℤ) : String :=
  if n < 0 then "-" ++ pad3 n.natAbs else pad3 n.toNat

/-- `os.path.join` for the two POSIX components joined in `writeSolution`
(the second component is a relative file name). -/
def pathJoin (a b : String) : String :=
  if a.data = [] then b
  else if a.data.getLast? = some '/' then a ++ b
  else a ++ "/" ++ b

/-- One iteration of the output loop in `writeSolution` (modal.py
lines 270-278): extract the eigenvector of `index` into the shared vector by
`getVariables(index, states=vec)`, set it as the assembler's state variables,
and write the f5 file named from the loop-invariant `outputDir`/`baseName`.
The shared vector's previous contents are fully overwritten by `copyValues`,
so it is modelled by a fresh zero vector each round. -/
noncomputable def writeModeStep (outputDir baseName : String)
    (st : ModalProblem × List Event) (index : Nat) : ModalProblem × List Event :=
  let q := st.1
  let r := getVariables q index (StatesArg.vec (List.replicate q.assembler.numVars 0))
  let v := statesVecValues r.statesOut
  let q2 := {q with assembler := {q.assembler with stateVars := v}}
  let fileName := pathJoin outputDir (baseName ++ "_" ++ fmt3 (index : ℤ)) ++ ".f5"
  (q2, st.2 ++ [Event.setVariables v, Event.writeToFile fileName])

/-- The base name built in `writeSolution` (modal.py lines 259-261): the
problem name, suffixed with the `'%3.3d' % callCounter` segment when the
`numberSolutions` option is on. -/
def writeBaseName (p : ModalProblem) : String :=
  if getBoolOption p.options "numberSolutions" then
    p.name ++ "_" ++ fmt3 p.callCounter
  else p.name

/-- `ModalProblem.writeSolution` (modal.py lines 238-278): when the
`writeSolution` option is on, reads `outputDir`, builds the base name (with
the `callCounter` segment when `numberSolutions` is on), defaults `indices`
to all `numEigs` modes, and writes one f5 file per requested mode, setting
each mode shape as the assembler's state variables before the write.  When
the option is off, nothing at all happens. -/
noncomputable def writeSolution (p : ModalProblem) (indices : Option (List Nat)) :
    ModalProblem × List Event :=
  if getBoolOption p.options "writeSolution" then
    let outputDir := getStrOption p.options "outputDir"
    let inds := indices.getD (List.range p.numEigs)
    inds.foldl (writeModeStep outputDir (writeBaseName p)) (p, [])
  else (p, [])

/-! ### Trace-inspection helpers and structural lemmas -/

/-- An event is an operator-assembly or preconditioner-factorization call
(whether the class-level `assembleJacobian`/`pc.factor` or the spec-modelled
eigensolver-internal assembly). -/
def isAssembleOrFactor : Event → Bool
  | Event.assembleJacobian _ _ _ _ => true
  | Event.pcFactor _ => true
  | Event.assembleMat _ => true
  | _ => false

/-- The file name carried by a `writeToFile` event. -/
def fileOfEvent : Event → Option String
  | Event.writeToFile f => some f
  | _ => none

/-- The artifact file names written in an event trace, in order. -/
def writtenFiles (evs : List Event) : List String := evs.filterMap fileOfEvent

/-- Overwriting the assembler's current state variables, as
`assembler.setVariables` does. -/
def setSV (p : ModalProblem) (v : List ℝ) : ModalProblem :=
  {p with assembler := {p.assembler with stateVars := v}}

theorem fileOfEvent_setVariables (v : List ℝ) :
    fileOfEvent (Event.setVariables v) = none := rfl

theorem fileOfEvent_writeToFile (f : String) :
    fileOfEvent (Event.writeToFile f) = some f := rfl

theorem extractVec_setSV (p : ModalProblem) (v : List ℝ) (i : Nat) :
    extractVec (setSV p v) i = extractVec p i := rfl

theorem setSV_setSV (p : ModalProblem) (v w : List ℝ) :
    setSV (setSV p v) w = setSV p w := rfl

theorem setSV_stateVars (p : ModalProblem) (v : List ℝ) :
    (setSV p v).assembler.stateVars = v := rfl

/-- Unfolding one round of the `writeSolution` output loop. -/
theorem writeModeStep_eq (outputDir baseName : String) (q : ModalProblem)
    (evs : List Event) (index : Nat) :
    writeModeStep outputDir baseName (q, evs) index =
      (setSV q (extractVec q index),
       evs ++ [Event.setVariables (extractVec q index),
               Event.writeToFile (pathJoin outputDir
                 (baseName ++ "_" ++ fmt3 (index : ℤ)) ++ ".f5")]) := rfl

/-- The whole `writeSolution` output loop: the final assembler state variables
are those of the last iteration (the initial ones when no mode is written),
and per mode the loop appends a `setVariables` of that mode's eigenvector
followed by the f5 write. -/
theorem writeModeStep_foldl (outputDir baseName : String) :
    ∀ (inds : List Nat) (q : ModalProblem) (evs : List Event),
    inds.foldl (writeModeStep outputDir baseName) (q, evs) =
      (inds.foldl (fun _ i => setSV q (extractVec q i)) q,
       evs ++ inds.flatMap (fun i =>
         [Event.setVariables (extractVec q i),
          Event.writeToFile (pathJoin outputDir
            (baseName ++ "_" ++ fmt3 (i : ℤ)) ++ ".f5")])) := by
  intro inds
  induction inds with
  | nil => intro q evs; simp
  | cons i rest ih =>
    intro q evs
    rw [List.foldl_cons, writeModeStep_eq, ih]
    simp only [List.foldl_cons, extractVec_setSV, setSV_setSV,
      List.flatMap_cons, List.append_assoc, List.cons_append, List.nil_append]

/-- A fold whose step ignores the accumulator returns the image of the last
element of the list. -/
theorem foldl_last {α β : Type} (g : β → α) :
    ∀ (l : List β) (a : α) (j : β), l.getLast? = some j →
      l.foldl (fun _ i => g i) a = g j := by
  intro l
  induction l with
  | nil => intro a j h; simp at h
  | cons i t ih =>
    intro a j h
    cases t with
    | nil =>
      have hij : i = j := by simpa using h
      subst hij; rfl
    | cons k u =>
      rw [List.foldl_cons]
      exact ih (g i) j (by simpa [List.getLast?_cons_cons] using h)

/-- A fold whose step ignores the accumulator returns either the initial
accumulator or the image of some list element. -/
theorem foldl_const_mem {α β : Type} (g : β → α) :
    ∀ (l : List β) (a : α), l.foldl (fun _ i => g i) a = a ∨
      ∃ j, l.foldl (fun _ i => g i) a = g j := by
  intro l
  induction l with
  | nil => intro a; left; rfl
  | cons i t ih =>
    intro a
    rw [List.foldl_cons]
    rcases ih (g i) with h | ⟨j, hj⟩
    · right; exact ⟨i, h⟩
    · right; exact ⟨j, hj⟩

/-- The files written by the output loop's event chunks are exactly the
per-mode file names. -/
theorem writtenFiles_pairs (l : List Nat) (f : Nat → List ℝ) (g : Nat → String) :
    writtenFiles (l.flatMap (fun i =>
      [Event.setVariables (f i), Event.writeToFile (g i)])) = l.map g := by
  induction l with
  | nil => rfl
  | cons i t ih =>
    simp only [List.flatMap_cons, writtenFiles, List.filterMap_append,
      List.filterMap_cons, fileOfEvent_setVariables, fileOfEvent_writeToFile,
      List.filterMap_nil, List.map_cons]
    simpa [writtenFiles] using ih

/-- The output loop's event chunks contain no assembly or factorization
call. -/
theorem filter_assemble_pairs (l : List Nat) (f : Nat → List ℝ) (g : Nat → String) :
    (l.flatMap (fun i =>
      [Event.setVariables (f i), Event.writeToFile (g i)])).filter
        isAssembleOrFactor = [] := by
  induction l with
  | nil => rfl
  | cons i t ih =>
    simp only [List.flatMap_cons, List.filter_append, List.filter_cons,
      List.filter_nil, isAssembleOrFactor, List.nil_append]
    simpa [isAssembleOrFactor] using ih

/-- Closed form of `writeSolution` with the gate option on: the final state
has the last written mode's eigenvector as the assembler state variables, and
the trace is one `setVariables`-then-`writeToFile` chunk per mode. -/
theorem writeSolution_on_eq (p : ModalProblem) (indices : Option (List Nat))
    (hw : getBoolOption p.options "writeSolution" = true) :
    writeSolution p indices =
      ((indices.getD (List.range p.numEigs)).foldl
         (fun _ i => setSV p (extractVec p i)) p,
       (indices.getD (List.range p.numEigs)).flatMap (fun i =>
         [Event.setVariables (extractVec p i),
          Event.writeToFile (pathJoin (getStrOption p.options "outputDir")
            (writeBaseName p ++ "_" ++ fmt3 (i : ℤ)) ++ ".f5")])) := by
  unfold writeSolution
  rw [hw]
  rw [if_pos rfl, writeModeStep_foldl]
  simp

/-- State component of `writeSolution_on_eq`. -/
theorem writeSolution_on_fst (p : ModalProblem) (indices : Option (List Nat))
    (hw : getBoolOption p.options "writeSolution" = true) :
    (writeSolution p indices).1 =
      (indices.getD (List.range p.numEigs)).foldl
        (fun _ i => setSV p (extractVec p i)) p := by
  rw [writeSolution_on_eq p indices hw]

/-- Trace component of `writeSolution_on_eq`. -/
theorem writeSolution_on_snd (p : ModalProblem) (indices : Option (List Nat))
    (hw : getBoolOption p.options "writeSolution" = true) :
    (writeSolution p indices).2 =
      (indices.getD (List.range p.numEigs)).flatMap (fun i =>
        [Event.setVariables (extractVec p i),
         Event.writeToFile (pathJoin (getStrOption p.options "outputDir")
           (writeBaseName p ++ "_" ++ fmt3 (i : ℤ)) ++ ".f5")]) := by
  rw [writeSolution_on_eq p indices hw]

/-- Closed form of `writeSolution` with the gate option off: nothing
happens. -/
theorem writeSolution_off_eq (p : ModalProblem) (indices : Option (List Nat))
    (hw : getBoolOption p.options "writeSolution" = false) :
    writeSolution p indices = (p, []) := by
  unfold writeSolution
  rw [hw]
  simp

/-! ### Concrete instances used by counterexamples and witnesses -/

/-- A concrete modal problem: name "plate", default options, one requested
eigenfrequency, eigensolver results holding one eigenpair (eigenvalue 4,
eigenvector [1, 0]), `callCounter = 0` as after one solve. -/
def examplePlate : ModalProblem :=
  { name := "plate", sigma := 4, numEigs := 1, options := defOpts,
    callCounter := 0, x := [1], Xpts := [0, 0, 0],
    assembler := ⟨[1], [0, 0, 0], [0, 0], 2⟩,
    Kcontent := MatContent.jacobian 1 0 0,
    Mcontent := MatContent.unassembled,
    pcFactored := some (MatContent.jacobian 1 0 0),
    freqSolver := ⟨[4], [0], [[1, 0]]⟩ }

/-- `examplePlate` with the `writeSolution` option overridden to `False`. -/
def examplePlateOff : ModalProblem :=
  { examplePlate with options :=
      [("outputdir", OptValue.str "./"),
       ("l2convergence", OptValue.flt (1 / 1000000000000)),
       ("l2convergencerel", OptValue.flt (1 / 1000000000000)),
       ("subspacesize", OptValue.int 10),
       ("nrestarts", OptValue.int 15),
       ("outputfrequency", OptValue.int 0),
       ("writesolution", OptValue.bool false),
       ("numbersolutions", OptValue.bool true),
       ("printtiming", OptValue.bool false),
       ("printlevel", OptValue.int 0)] }

/-- A concrete construction with frequency guess 2 (so sigma = 4). -/
def cexInit : ModalProblem × List Event :=
  initProblem "plate" 2 3 ⟨[], [], [], 2⟩ [] []

/-! ### Claim theorems -/

/-- C1: on every call, `solve()` binds the current design variables and node
coordinates into the assembler, runs the eigensolver — whose spec-modelled
interior reassembles the mass and stiffness operators from the bound
variables and factors the shifted operator, rebuilding rather than reusing
the operators on every call — and increments `callCounter`. -/
theorem solve_rebinds_and_eigensolver_rebuilds :
    ∀ (p : ModalProblem) (res : FreqResults),
      (solve p (Except.ok res)).state.assembler.x = p.x ∧
      (solve p (Except.ok res)).state.assembler.Xpts = p.Xpts ∧
      (solve p (Except.ok res)).state.callCounter = p.callCounter + 1 ∧
      (solve p (Except.ok res)).state.freqSolver = res ∧
      (solve p (Except.ok res)).err = Option.none ∧
      (solve p (Except.ok res)).events =
        [Event.setDesignVars, Event.setNodes,
         Event.freqSolverSolve (getIntOption p.options "printLevel")] ∧
      freqSolverSolveEvents p.sigma =
        [Event.assembleMat MatId.mass, Event.assembleMat MatId.stiff,
         Event.pcFactor (MatContent.jacobian 1 0 (-p.sigma)),
         Event.eigenIterate] :=
  fun p res => ⟨rfl, rfl, rfl, rfl, rfl, rfl, rfl⟩

/-- C2 counterexample: at construction with frequency guess 2 (sigma = 4),
the preconditioner factors the plain stiffness operator — contents assembled
with coefficients (1, 0, 0) — which is not the shifted operator K - sigma*M
(coefficients (1, 0, -4)); so the shifted operator is not the only operator
factored by the preconditioner. -/
theorem pcFactor_unshifted_at_construction_cex :
    Event.pcFactor (MatContent.jacobian 1 0 0) ∈ cexInit.2 ∧
    cexInit.1.sigma = 4 ∧
    MatContent.jacobian 1 0 0 ≠ MatContent.jacobian 1 0 (-4) := by
  refine ⟨?_, ?_, ?_⟩
  · simp [cexInit, initProblem, createVariables]
  · show (2:ℝ) ^ 2 = 4
    norm_num
  · intro h
    injection h with h1 h2 h3
    norm_num at h3

/-- C2 amended: sigma = fGuess²; at construction the preconditioner factors
the plain stiffness operator K, assembled with alpha=1, beta=0, gamma=0 — so
the shifted operator is not the only operator the preconditioner ever
factors; the shifted operator K - sigma*M is what the spec-modelled interior
of the eigensolver's solve factors on each solve call. -/
theorem pcFactor_targets :
    (∀ (name : String) (fGuess : ℝ) (numFreqs : Nat) (asm : Assembler)
       (x Xpts : List ℝ),
      (initProblem name fGuess numFreqs asm x Xpts).1.sigma = fGuess ^ 2 ∧
      (initProblem name fGuess numFreqs asm x Xpts).1.pcFactored =
        some (MatContent.jacobian 1 0 0) ∧
      (initProblem name fGuess numFreqs asm x Xpts).2.filter isAssembleOrFactor =
        [Event.assembleJacobian 1 0 0 MatId.stiff,
         Event.pcFactor (MatContent.jacobian 1 0 0)]) ∧
    (∀ sigma : ℝ,
      (freqSolverSolveEvents sigma).filter isAssembleOrFactor =
        [Event.assembleMat MatId.mass, Event.assembleMat MatId.stiff,
         Event.pcFactor (MatContent.jacobian 1 0 (-sigma))]) := by
  constructor
  · intro name fGuess numFreqs asm x Xpts
    exact ⟨rfl, rfl, rfl⟩
  · intro sigma
    rfl

/-- C4: `addFunction`, `evalFunctions` and `evalFunctionsSens`, with any
arguments, each emit exactly one diagnostic warning, perform no computation,
do not raise, and leave the problem unchanged. -/
theorem unsupported_methods_warn_and_noop {α β γ : Type}
    (p : ModalProblem) (funcName : α) (funcHandle : β) (compIDs : Option γ)
    (funcs : α) (evalFuncs : Option β) (ignoreMissing : Bool) (funcsSens : α) :
    addFunction p funcName funcHandle compIDs =
      (p, [Event.warning "addFunction method not supported for this class."]) ∧
    evalFunctions p funcs evalFuncs ignoreMissing =
      (p, [Event.warning "evalFunctions method not supported for this class."]) ∧
    evalFunctionsSens p funcsSens evalFuncs =
      (p, [Event.warning "evalFunctionsSens method not supported for this class."]) :=
  ⟨rfl, rfl, rfl⟩

/-- C5: for a valid mode index, `getVariables` returns the square root of the
extracted eigenvalue as the frequency, together with the eigenvector values,
and fills a provided storage in place, accepting both an operator-native
vector (`tacs.TACS.Vec`) and a flat numeric buffer (`numpy.ndarray`). -/
theorem getVariables_freq_sqrt_and_storage (p : ModalProblem) (index : Nat)
    (w a : List ℝ) (h : index < p.numEigs) :
    (getVariables p index StatesArg.noStates).freq =
      Real.sqrt (p.freqSolver.eigenvalues.getD index 0) ∧
    (getVariables p index StatesArg.noStates).values = extractVec p index ∧
    (getVariables p index StatesArg.noStates).statesOut = StatesArg.noStates ∧
    (getVariables p index (StatesArg.vec w)).freq =
      Real.sqrt (p.freqSolver.eigenvalues.getD index 0) ∧
    (getVariables p index (StatesArg.vec w)).values = extractVec p index ∧
    (getVariables p index (StatesArg.vec w)).statesOut =
      StatesArg.vec (extractVec p index) ∧
    (getVariables p index (StatesArg.ndarray a)).freq =
      Real.sqrt (p.freqSolver.eigenvalues.getD index 0) ∧
    (getVariables p index (StatesArg.ndarray a)).values = extractVec p index ∧
    (getVariables p index (StatesArg.ndarray a)).statesOut =
      StatesArg.ndarray (extractVec p index) :=
  ⟨rfl, rfl, rfl, rfl, rfl, rfl, rfl, rfl, rfl⟩

/-- Witness for C5: instantiated at `examplePlate` with mode index 0 and
two-entry storage buffers; the extracted eigenvector is `[1, 0]`. -/
theorem getVariables_freq_sqrt_and_storage_witness :
    0 < examplePlate.numEigs ∧
    extractVec examplePlate 0 = [1, 0] ∧
    (getVariables examplePlate 0 (StatesArg.vec [0, 0])).statesOut =
      StatesArg.vec (extractVec examplePlate 0) ∧
    (getVariables examplePlate 0 (StatesArg.ndarray [0, 0])).statesOut =
      StatesArg.ndarray (extractVec examplePlate 0) :=
  ⟨by decide, rfl,
   (getVariables_freq_sqrt_and_storage examplePlate 0 [0, 0] [0, 0]
     (by decide)).2.2.2.2.2.1,
   (getVariables_freq_sqrt_and_storage examplePlate 0 [0, 0] [0, 0]
     (by decide)).2.2.2.2.2.2.2.2⟩

/-- C6: `callCounter` is -1 right after construction and is incremented by
exactly one on every `solve()` call, whether the eigensolver succeeds or
raises. -/
theorem callCounter_starts_neg_one_and_increments :
    (∀ (name : String) (fGuess : ℝ) (numFreqs : Nat) (asm : Assembler)
       (x Xpts : List ℝ),
      (initProblem name fGuess numFreqs asm x Xpts).1.callCounter = -1) ∧
    (∀ (p : ModalProblem) (r : Except String FreqResults),
      (solve p r).state.callCounter = p.callCounter + 1) := by
  constructor
  · intro name fGuess numFreqs asm x Xpts
    rfl
  · intro p r
    cases r with
    | error e => rfl
    | ok res => rfl

/-- C10: `solve()` increments `callCounter` before invoking the eigensolver,
so when the eigensolver's solve raises, the exception propagates with
`callCounter` already incremented (and the variables already bound), while
the eigensolver results are left as they were. -/
theorem solve_increments_before_eigensolver_error :
    ∀ (p : ModalProblem) (e : String),
      (solve p (Except.error e)).state.callCounter = p.callCounter + 1 ∧
      (solve p (Except.error e)).err = some e ∧
      (solve p (Except.error e)).state.freqSolver = p.freqSolver ∧
      (solve p (Except.error e)).state.assembler.x = p.x ∧
      (solve p (Except.error e)).state.assembler.Xpts = p.Xpts :=
  fun p e => ⟨rfl, rfl, rfl, rfl, rfl⟩

/-- C3 counterexample: at `examplePlate` (default options, one mode,
`callCounter = 0`), `writeSolution(None)` writes the single artifact
`./plate_000_000.f5` — not `./plate_000_000` as the claimed naming scheme
`{name}_{callCounter:03d}_{modeIndex:03d}` states: the writer appends a
`.f5` extension. -/
theorem writeSolution_name_extension_cex :
    writtenFiles (writeSolution examplePlate Option.none).2 =
      ["./plate_000_000.f5"] ∧
    writtenFiles (writeSolution examplePlate Option.none).2 ≠
      [pathJoin (getStrOption examplePlate.options "outputDir")
        (examplePlate.name ++ "_" ++ fmt3 examplePlate.callCounter ++ "_" ++
          fmt3 0)] := by
  constructor
  · decide
  · decide

/-- C3 amended: `writeSolution(None)` with output enabled and
`numberSolutions` on writes exactly one artifact per mode for all `numEigs`
modes, the artifact for mode i named
`{name}_{callCounter:03d}_{modeIndex:03d}.f5` (the `.f5` extension appended
to the claimed scheme) and placed under the `outputdir` option's
directory. -/
theorem writeSolution_artifact_names (p : ModalProblem)
    (hw : getBoolOption p.options "writeSolution" = true)
    (hn : getBoolOption p.options "numberSolutions" = true) :
    writtenFiles (writeSolution p Option.none).2 =
      (List.range p.numEigs).map (fun i : ℕ =>
        pathJoin (getStrOption p.options "outputDir")
          ((p.name ++ "_" ++ fmt3 p.callCounter) ++ "_" ++ fmt3 (i : ℤ)) ++
          ".f5") ∧
    (writtenFiles (writeSolution p Option.none).2).length = p.numEigs := by
  have hbase : writeBaseName p = p.name ++ "_" ++ fmt3 p.callCounter := by
    unfold writeBaseName
    rw [hn]
    simp
  have h2 := writeSolution_on_snd p Option.none hw
  rw [hbase] at h2
  simp only [Option.getD_none] at h2
  constructor
  · rw [h2]
    exact writtenFiles_pairs (List.range p.numEigs) _ _
  · rw [h2, writtenFiles_pairs (List.range p.numEigs) _ _]
    simp

/-- Witness for the amended C3: at `examplePlate` both gate options hold and
the single written artifact is named `./plate_000_000.f5`. -/
theorem writeSolution_artifact_names_witness :
    getBoolOption examplePlate.options "writeSolution" = true ∧
    getBoolOption examplePlate.options "numberSolutions" = true ∧
    (writtenFiles (writeSolution examplePlate Option.none).2 =
      (List.range examplePlate.numEigs).map (fun i : ℕ =>
        pathJoin (getStrOption examplePlate.options "outputDir")
          ((examplePlate.name ++ "_" ++ fmt3 examplePlate.callCounter) ++ "_"
            ++ fmt3 (i : ℤ)) ++ ".f5") ∧
     (writtenFiles (writeSolution examplePlate Option.none).2).length =
       examplePlate.numEigs) :=
  ⟨by decide, by decide,
   writeSolution_artifact_names examplePlate (by decide) (by decide)⟩

/-- C7: with output enabled, `writeSolution` sets the assembler's state
variables to each written mode's eigenvector immediately before the
corresponding f5 write, and restores nothing afterwards: the final assembler
state is exactly the problem with the last written mode's eigenvector as its
state variables. -/
theorem writeSolution_sets_modes_no_restore (p : ModalProblem)
    (inds : List Nat) (j : Nat)
    (hw : getBoolOption p.options "writeSolution" = true)
    (hlast : inds.getLast? = some j) :
    (writeSolution p (some inds)).1 = setSV p (extractVec p j) ∧
    (writeSolution p (some inds)).1.assembler.stateVars = extractVec p j ∧
    (writeSolution p (some inds)).2 =
      inds.flatMap (fun i =>
        [Event.setVariables (extractVec p i),
         Event.writeToFile (pathJoin (getStrOption p.options "outputDir")
           (writeBaseName p ++ "_" ++ fmt3 (i : ℤ)) ++ ".f5")]) := by
  have h1 := writeSolution_on_fst p (some inds) hw
  have h2 := writeSolution_on_snd p (some inds) hw
  simp only [Option.getD_some] at h1 h2
  rw [h1, h2]
  refine ⟨?_, ?_, rfl⟩
  · exact foldl_last (fun i => setSV p (extractVec p i)) inds p j hlast
  · rw [foldl_last (fun i => setSV p (extractVec p i)) inds p j hlast]
    rfl

/-- Witness for C7: at `examplePlate` writing mode list [0] leaves the
assembler's state variables holding mode 0's eigenvector `[1, 0]`. -/
theorem writeSolution_sets_modes_no_restore_witness :
    getBoolOption examplePlate.options "writeSolution" = true ∧
    [0].getLast? = some 0 ∧
    (writeSolution examplePlate (some [0])).1.assembler.stateVars =
      extractVec examplePlate 0 ∧
    extractVec examplePlate 0 = [1, 0] :=
  ⟨by decide, by decide,
   (writeSolution_sets_modes_no_restore examplePlate [0] 0 (by decide)
     (by decide)).2.1,
   rfl⟩

/-- C8: with the `writeSolution` option off, `writeSolution` writes no
artifact, emits no external call at all, and returns the problem (and with it
the assembler state) unchanged. -/
theorem writeSolution_disabled_noop (p : ModalProblem)
    (indices : Option (List Nat))
    (hw : getBoolOption p.options "writeSolution" = false) :
    writeSolution p indices = (p, []) ∧
    writtenFiles (writeSolution p indices).2 = [] :=
  ⟨writeSolution_off_eq p indices hw,
   by rw [writeSolution_off_eq p indices hw]; rfl⟩

/-- Witness for C8: at `examplePlateOff` (the `writeSolution` option set to
`False`) nothing is written and the problem is returned unchanged. -/
theorem writeSolution_disabled_noop_witness :
    getBoolOption examplePlateOff.options "writeSolution" = false ∧
    (writeSolution examplePlateOff Option.none = (examplePlateOff, []) ∧
     writtenFiles (writeSolution examplePlateOff Option.none).2 = []) :=
  ⟨by decide, writeSolution_disabled_noop examplePlateOff Option.none (by decide)⟩

/-- C9: all operator assembly and preconditioner factorization performed by
this class happens at construction — `_createVariables` assembles the
stiffness matrix with alpha=1, beta=0, gamma=0 and LU-factors it, the mass
matrix is only allocated (`unassembled`) and no method of the class ever
assembles it — while `solve`, `writeSolution`, `_updateAssemblerVars`,
`getNumFrequencies` and the unsupported-function methods emit no assembly or
factorization call of their own (the per-solve reassembly of the spec lives
inside the external eigensolver object, not in this class), and leave the
matrix contents and factorization state unchanged. -/
theorem assembly_and_factorization_only_at_construction :
    (∀ p : ModalProblem,
      (createVariables p).2.filter isAssembleOrFactor =
        [Event.assembleJacobian 1 0 0 MatId.stiff,
         Event.pcFactor (MatContent.jacobian 1 0 0)] ∧
      (createVariables p).1.Kcontent = MatContent.jacobian 1 0 0 ∧
      (createVariables p).1.Mcontent = MatContent.unassembled ∧
      (createVariables p).1.pcFactored = some (MatContent.jacobian 1 0 0)) ∧
    (∀ (p : ModalProblem) (r : Except String FreqResults),
      (solve p r).events.filter isAssembleOrFactor = [] ∧
      (solve p r).state.Kcontent = p.Kcontent ∧
      (solve p r).state.Mcontent = p.Mcontent ∧
      (solve p r).state.pcFactored = p.pcFactored) ∧
    (∀ (p : ModalProblem) (indices : Option (List Nat)),
      (writeSolution p indices).2.filter isAssembleOrFactor = [] ∧
      (writeSolution p indices).1.Kcontent = p.Kcontent ∧
      (writeSolution p indices).1.Mcontent = p.Mcontent ∧
      (writeSolution p indices).1.pcFactored = p.pcFactored) ∧
    (∀ p : ModalProblem,
      (updateAssemblerVars p).2.filter isAssembleOrFactor = [] ∧
      (getNumFrequencies p).2 = []) ∧
    (∀ {α β γ : Type} (p : ModalProblem) (funcName : α) (funcHandle : β)
       (compIDs : Option γ) (ignoreMissing : Bool) (evalFuncs : Option β),
      (addFunction p funcName funcHandle compIDs).2.filter isAssembleOrFactor
        = [] ∧
      (evalFunctions p funcName evalFuncs ignoreMissing).2.filter
        isAssembleOrFactor = [] ∧
      (evalFunctionsSens p funcName evalFuncs).2.filter isAssembleOrFactor
        = []) := by
  refine ⟨?_, ?_, ?_, ?_, ?_⟩
  · intro p
    exact ⟨rfl, rfl, rfl, rfl⟩
  · intro p r
    cases r with
    | error e => exact ⟨rfl, rfl, rfl, rfl⟩
    | ok res => exact ⟨rfl, rfl, rfl, rfl⟩
  · intro p indices
    by_cases hw : getBoolOption p.options "writeSolution" = true
    · rw [writeSolution_on_snd p indices hw, writeSolution_on_fst p indices hw]
      refine ⟨filter_assemble_pairs _ _ _, ?_, ?_, ?_⟩ <;>
        · rcases foldl_const_mem (fun i => setSV p (extractVec p i))
            (indices.getD (List.range p.numEigs)) p with h | ⟨j, hj⟩
          · rw [h]
          · rw [hj]
            rfl
    · rw [Bool.not_eq_true] at hw
      rw [writeSolution_off_eq p indices hw]
      exact ⟨rfl, rfl, rfl, rfl⟩
  · intro p
    exact ⟨rfl, rfl⟩
  · intro α β γ p funcName funcHandle compIDs ignoreMissing evalFuncs
    exact ⟨rfl, rfl, rfl⟩

end Modal
